import Mathlib

/-!
Verification of the Revolut webhook authentication core (src/main.py).

The embedding translates, statement by statement, the methods
`RevolutWebhookManager.validate_timestamp`, `RevolutWebhookManager.validate_signature`,
`RevolutWebhookManager.process_webhook` and the endpoint `handle_revolut_webhook`.

Modelling conventions:
- Python machine-level 32-bit words are `Nat` reduced modulo 2^32.
- Python exceptions are values of `PyExc`; `raise` becomes `Except.error`,
  a `try/except` becomes a `match` on the inner result.
- Header values and the raw body are Lean `String`s (the HTTP layer decodes
  header bytes as latin-1 and the body as utf-8; the utf-8 decode step of the
  endpoint is not itself modelled, bodies are taken as already-decoded text).
- Instants are integer microseconds since the Unix epoch (`datetime` has
  microsecond resolution; for the timestamp magnitudes any claim touches, the
  float arithmetic of the source is microsecond-exact, see `validate_timestamp`).
- Methods that can mutate `self` are state-threaded: they return their result
  together with the (possibly updated) manager record.
-/

/-! ## 32-bit word arithmetic and SHA-256 (as used by Python hashlib/hmac) -/

def M32 : Nat := 4294967296

def rotr32 (n x : Nat) : Nat := ((x >>> n) ||| (x <<< (32 - n))) % M32

def xor3 (a b c : Nat) : Nat := Nat.xor (Nat.xor a b) c

def smallSigma0 (x : Nat) : Nat := xor3 (rotr32 7 x) (rotr32 18 x) (x >>> 3)

def smallSigma1 (x : Nat) : Nat := xor3 (rotr32 17 x) (rotr32 19 x) (x >>> 10)

def bigSigma0 (x : Nat) : Nat := xor3 (rotr32 2 x) (rotr32 13 x) (rotr32 22 x)

def bigSigma1 (x : Nat) : Nat := xor3 (rotr32 6 x) (rotr32 11 x) (rotr32 25 x)

def chF (e f g : Nat) : Nat := Nat.xor (e &&& f) ((Nat.xor e 4294967295) &&& g)

def majF (a b c : Nat) : Nat := xor3 (a &&& b) (a &&& c) (b &&& c)

/-- The 64 SHA-256 round constants (fractional parts of the cube roots of the
first 64 primes). -/
def K256 : List Nat := [
1116352408, 1899447441, 3049323471, 3921009573, 961987163, 1508970993, 2453635748, 2870763221,
3624381080, 310598401, 607225278, 1426881987, 1925078388, 2162078206, 2614888103, 3248222580,
3835390401, 4022224774, 264347078, 604807628, 770255983, 1249150122, 1555081692, 1996064986,
2554220882, 2821834349, 2952996808, 3210313671, 3336571891, 3584528711, 113926993, 338241895,
666307205, 773529912, 1294757372, 1396182291, 1695183700, 1986661051, 2177026350, 2456956037,
2730485921, 2820302411, 3259730800, 3345764771, 3516065817, 3600352804, 4094571909, 275423344,
430227734, 506948616, 659060556, 883997877, 958139571, 1322822218, 1537002063, 1747873779,
1955562222, 2024104815, 2227730452, 2361852424, 2428436474, 2756734187, 3204031479, 3329325298]

/-- The SHA-256 initial hash state. -/
def H256 : List Nat :=
[1779033703, 3144134277, 1013904242, 2773480762, 1359893119, 2600822924, 528734635, 1541459225]

/-- Render `v` as `n` big-endian bytes. -/
def toBytesBE : Nat → Nat → List Nat
  | 0, _ => []
  | n + 1, v => toBytesBE n (v >>> 8) ++ [v % 256]

/-- SHA-256 padding: append 0x80, zero bytes to 56 mod 64, then the bit length
as 8 big-endian bytes. -/
def padBytes (msg : List Nat) : List Nat :=
  let l := msg.length
  let k := (119 - (l % 64)) % 64
  msg ++ 128 :: List.replicate k 0 ++ toBytesBE 8 (8 * l)

/-- Split into 64-byte blocks (fuel-driven structural recursion). -/
def chunks64 : Nat → List Nat → List (List Nat)
  | 0, _ => []
  | _, [] => []
  | fuel + 1, l => l.take 64 :: chunks64 fuel (l.drop 64)

/-- Group bytes into big-endian 32-bit words (fuel-driven). -/
def bytesToWords : Nat → List Nat → List Nat
  | 0, _ => []
  | _, [] => []
  | fuel + 1, b0 :: b1 :: b2 :: b3 :: r =>
      (((b0 <<< 24) ||| (b1 <<< 16)) ||| ((b2 <<< 8) ||| b3)) :: bytesToWords fuel r
  | _ + 1, _ => []

/-- Extend the 16 message words to 64 by the SHA-256 message schedule,
appending `n` more words. -/
def extendW : Nat → List Nat → List Nat
  | 0, w => w
  | n + 1, w =>
      let i := w.length
      let wi := (smallSigma1 (w.getD (i - 2) 0) + w.getD (i - 7) 0
                 + smallSigma0 (w.getD (i - 15) 0) + w.getD (i - 16) 0) % M32
      extendW n (w ++ [wi])

/-- One SHA-256 round on the state `[a,b,c,d,e,f,g,h]` with constant and
schedule word `kw`. -/
def roundStep (st : List Nat) (kw : Nat × Nat) : List Nat :=
  match st with
  | [a, b, c, d, e, f, g, h] =>
      let t1 := (((h + bigSigma1 e) % M32 + chF e f g) % M32 + (kw.1 + kw.2) % M32) % M32
      let t2 := (bigSigma0 a + majF a b c) % M32
      [(t1 + t2) % M32, a, b, c, (d + t1) % M32, e, f, g]
  | _ => st

/-- Compress one 64-byte block into the running hash state. -/
def compressBlock (h : List Nat) (block : List Nat) : List Nat :=
  let w := extendW 48 (bytesToWords block.length block)
  let st := (K256.zip w).foldl roundStep h
  (h.zip st).map (fun p => (p.1 + p.2) % M32)

/-- SHA-256 of a byte list, as a 32-byte list. -/
def sha256Bytes (msg : List Nat) : List Nat :=
  let padded := padBytes msg
  let hh := (chunks64 (padded.length + 1) padded).foldl compressBlock H256
  (hh.map (toBytesBE 4)).flatten

/-- Lowercase hex digit, as produced by Python hexdigest. -/
def hexDigitChar (n : Nat) : Char :=
  if n < 10 then Char.ofNat (48 + n) else Char.ofNat (87 + n)

def byteToHexChars (b : Nat) : List Char := [hexDigitChar (b / 16 % 16), hexDigitChar (b % 16)]

/-- Lowercase hex rendering of a byte list (Python `hexdigest()`). -/
def hexOfBytes (l : List Nat) : String :=
  String.mk ((l.map byteToHexChars).flatten)

/-- utf-8 encoding of one unicode scalar value (Python `bytes(s, "utf-8")`). -/
def utf8EncodeChar (c : Char) : List Nat :=
  let n := c.toNat
  if n < 128 then [n]
  else if n < 2048 then [192 + n / 64, 128 + n % 64]
  else if n < 65536 then [224 + n / 4096, 128 + (n / 64) % 64, 128 + n % 64]
  else [240 + n / 262144, 128 + (n / 4096) % 64, 128 + (n / 64) % 64, 128 + n % 64]

def utf8Bytes (s : String) : List Nat := (s.data.map utf8EncodeChar).flatten

/-- HMAC-SHA256 (Python `hmac.new(key, msg, hashlib.sha256)`), block size 64. -/
def hmacSha256 (key msg : List Nat) : List Nat :=
  let k0 := if key.length > 64 then sha256Bytes key else key
  let kp := k0 ++ List.replicate (64 - k0.length) 0
  let ip := kp.map (fun b => Nat.xor b 54)
  let op := kp.map (fun b => Nat.xor b 92)
  sha256Bytes (op ++ sha256Bytes (ip ++ msg))

/-- Python `hmac.new(bytes(key, "utf-8"), bytes(msg, "utf-8"), hashlib.sha256).hexdigest()`. -/
def hmacSha256Hex (key msg : String) : String :=
  hexOfBytes (hmacSha256 (utf8Bytes key) (utf8Bytes msg))

/-! ## Python value and exception model -/

/-- The Python exceptions that can arise in the webhook path. `http` is
fastapi `HTTPException(status_code, detail)`; `overflowError` is the
`OverflowError` raised by `datetime.fromtimestamp` (or the float division) on
magnitudes beyond the platform `time_t`; `osError` is the `OSError`
(EOVERFLOW, errno 75) raised by `fromtimestamp` when the underlying
`gmtime_r` cannot fit the year into a C `int` although the second-count still
fits `time_t`; `typeError` is the `TypeError` raised by `hmac.compare_digest`
on a non-ASCII `str`; `jsonDecodeError` stands for `json.JSONDecodeError`. -/
inductive PyExc where
  | http (status_code : Nat) (detail : String)
  | overflowError
  | osError
  | typeError
  | jsonDecodeError
deriving DecidableEq, Repr

/-- Python `str(e)` for the exceptions above, as used by the endpoint when wrapping a
caught exception into a 500 response. Starlette renders an `HTTPException` as
`"status: detail"`; for the others the message text is the CPython one (its
exact wording is irrelevant to every claim). -/
def pyStr : PyExc → String
  | .http s d => toString s ++ (": ") ++ d
  | .overflowError => "timestamp out of range for platform time_t"
  | .osError => "[Errno 75] Value too large for defined data type"
  | .typeError => "comparing strings with non-ASCII characters is not supported"
  | .jsonDecodeError => "Expecting value"

/-- The whitespace set of CPython (`Py_UNICODE_ISSPACE`), used both by
`str.strip()` and by `int()` when trimming its argument. -/
def pyIsSpace (c : Char) : Bool :=
  decide ((9 ≤ c.toNat ∧ c.toNat ≤ 13) ∨ (28 ≤ c.toNat ∧ c.toNat ≤ 32) ∨
    c.toNat = 133 ∨ c.toNat = 160 ∨ c.toNat = 5760 ∨
    (8192 ≤ c.toNat ∧ c.toNat ≤ 8202) ∨ c.toNat = 8232 ∨ c.toNat = 8233 ∨
    c.toNat = 8239 ∨ c.toNat = 8287 ∨ c.toNat = 12288)

def pyStripList (l : List Char) : List Char :=
  ((l.dropWhile pyIsSpace).reverse.dropWhile pyIsSpace).reverse

/-- Python `str.strip()`. -/
def pyStrip (s : String) : String := String.mk (pyStripList s.data)

/-- True when every character is ASCII; `hmac.compare_digest` on `str`
arguments requires this. -/
def isAsciiStr (s : String) : Bool := s.data.all (fun c => decide (c.toNat < 128))

def pyDigit (c : Char) : Option Nat :=
  if 48 ≤ c.toNat ∧ c.toNat ≤ 57 then some (c.toNat - 48) else none

/-- Digit run after the first digit: single underscores are permitted between
digits (Python 3.6+ literal grouping). -/
def pyParseDigitsAux (acc : Nat) : List Char → Option Nat
  | [] => some acc
  | '_' :: c :: r =>
      match pyDigit c with
      | some d => pyParseDigitsAux (acc * 10 + d) r
      | none => none
  | c :: r =>
      match pyDigit c with
      | some d => pyParseDigitsAux (acc * 10 + d) r
      | none => none

def pyParseDigits : List Char → Option Nat
  | [] => none
  | c :: r =>
      match pyDigit c with
      | some d => pyParseDigitsAux d r
      | none => none

/-- Python `int(s)` on a decimal string: surrounding whitespace is stripped, a
single leading sign is allowed, then ASCII digits with single underscores
between digits; anything else raises `ValueError` (modelled as `none`).
Header values travel as latin-1 text, in which the ASCII digits are the only
characters `int()` accepts as digits. -/
def pyIntParse (s : String) : Option Int :=
  match pyStripList s.data with
  | '+' :: r => (pyParseDigits r).map (fun n => (n : Int))
  | '-' :: r => (pyParseDigits r).map (fun n => -(n : Int))
  | r => (pyParseDigits r).map (fun n => (n : Int))

/-- Python truthiness of an `Optional[str]`: `None` and `""` are falsy. -/
def pyTruthy : Option String → Bool
  | none => false
  | some s => !(s == "")

/-- f-string interpolation of an `Optional[str]` value (`None` prints as
`"None"`). -/
def pyStrOfOpt : Option String → String
  | none => "None"
  | some s => s

/-- Python `dict.get` on the headers dictionary, modelled as lookup in an association
list with distinct keys. -/
def dictGet (d : List (String × String)) (k : String) : Option String :=
  match d with
  | [] => none
  | (k1, v) :: r => if k1 == k then some v else dictGet r k

/-! ## The webhook manager (src/main.py, class RevolutWebhookManager)

The four environment-variable fields (`api_key`, `secret`, `base_url`,
`api_version`) only configure the out-of-scope REST client and are checked
non-null in `__init__`; they play no part in verification, so only the
mutable `webhook_signing_secret` field is modelled. `__init__` sets it to
`None` (line 60). -/

structure RevolutWebhookManager where
  webhook_signing_secret : Option String
deriving DecidableEq, Repr

/-- Python `hmac.compare_digest` on two `str` values: both must be ASCII-only,
otherwise it raises `TypeError`; on ASCII strings it is a (constant-time)
equality test. -/
def compare_digest (a b : String) : Except PyExc Bool :=
  if isAsciiStr a && isAsciiStr b then .ok (a == b) else .error .typeError

/-- Lower bound of `datetime` (0001-01-01 UTC) in epoch milliseconds; below
it `fromtimestamp` raises `ValueError`. -/
def DATETIME_MIN_MS : Int := -62135596800000

/-- Upper bound of `datetime` (9999-12-31 23:59:59.999999 UTC) in epoch
milliseconds; above it `fromtimestamp` raises `ValueError`. -/
def DATETIME_MAX_MS : Int := 253402300799999

/-- Smallest positive integer millisecond count whose conversion raises
`OverflowError` (the float quotient reaches 2^63 and no longer fits a signed
64-bit `time_t`): (2^63 - 512) * 1000, the last value before the float
rounding to 2^63 sets in. Bisected empirically against CPython on this
platform, as were the three companion boundaries below. -/
def TIME_T_OVERFLOW_POS_MS : Int := 9223372036854775296000

/-- Largest negative integer millisecond count whose conversion raises
`OverflowError` (float quotient below -2^63): one less than
-(2^63 + 1024) * 1000. -/
def TIME_T_OVERFLOW_NEG_MS : Int := -9223372036854776832001

/-- Smallest positive integer millisecond count for which `fromtimestamp`
raises `OSError` (EOVERFLOW) instead of `ValueError`: the instant whose year
2147485548 = 2147483647 + 1901 overflows the C `int` field `tm_year` inside
glibc `gmtime_r`. Between this and `TIME_T_OVERFLOW_POS_MS` the source leaks
a bare `OSError` that `except (ValueError, TypeError)` does not catch. -/
def OS_ERROR_POS_MS : Int := 67768036191676796000

/-- Largest negative integer millisecond count for which `fromtimestamp`
raises `OSError` instead of `ValueError` (year below the `tm_year` minimum);
the mirror-image band runs down to `TIME_T_OVERFLOW_NEG_MS`. -/
def OS_ERROR_NEG_MS : Int := -67768040609740804001

/-- Embeds `RevolutWebhookManager.validate_timestamp` (src/main.py lines 65-92).
`now_us` is `datetime.now(timezone.utc)` in integer epoch microseconds. The
parsed header value `t` is in milliseconds; the source converts it through
`int(h) / 1000` and `fromtimestamp`, which for every `t` with
`|t| <= 2^32 * 1000` reproduces the instant `1000 * t` microseconds exactly
(the float quotient is then within half a microsecond of exact), so the
5-minute staleness test compares `|now_us - 1000 t|` against 300 seconds.
Out-of-range instants up to the `tm_year` overflow raise `ValueError` from
`fromtimestamp`, which the `except (ValueError, TypeError)` arm turns into
the 400 "Invalid timestamp format" response; magnitudes in the `gmtime_r`
band raise `OSError` and `time_t`-overflowing magnitudes raise
`OverflowError`, neither of which that arm catches - both escape the method
as bare faults. -/
def validate_timestamp (timestamp_header : Option String) (now_us : Int) :
    Except PyExc Bool :=
  if !(pyTruthy timestamp_header) then .error (.http 400 ("Missing timestamp header"))
  else
    match pyIntParse (pyStrOfOpt timestamp_header) with
    | none => .error (.http 400 ("Invalid timestamp format"))
    | some t =>
      if TIME_T_OVERFLOW_POS_MS ≤ t ∨ t ≤ TIME_T_OVERFLOW_NEG_MS then .error .overflowError
      else if OS_ERROR_POS_MS ≤ t ∨ t ≤ OS_ERROR_NEG_MS then .error .osError
      else if t < DATETIME_MIN_MS ∨ DATETIME_MAX_MS < t then
        .error (.http 400 ("Invalid timestamp format"))
      else if 300000000 < (now_us - t * 1000).natAbs then
        .error (.http 400 ("Webhook timestamp is too old"))
      else .ok true

/-- Worker for `pySplitComma`: accumulates the current part (reversed) while
walking the characters. -/
def pySplitCommaAux (cur : List Char) : List Char → List (List Char)
  | [] => [cur.reverse]
  | c :: r => if c = ',' then cur.reverse :: pySplitCommaAux [] r else pySplitCommaAux (c :: cur) r

/-- Python `s.split(",")`: split on every comma, keeping empty parts (the
split of `""` is `[""]`). -/
def pySplitComma (s : String) : List String :=
  (pySplitCommaAux [] s.data).map String.mk

/-- The expected tag of `validate_signature` (src/main.py lines 108-120):
`"v1=" + hexdigest` of HMAC-SHA256 keyed by the signing secret over the
canonical string `f"v1.{timestamp_header}.{raw_payload}"`. -/
def expected_signature (secret : String) (timestamp_header : Option String)
    (raw_payload : String) : String :=
  "v1=" ++ hmacSha256Hex secret ("v1." ++ pyStrOfOpt timestamp_header ++ "." ++ raw_payload)

/-- The candidate loop inside the `try` of `validate_signature` (lines
126-134): each comma-separated candidate is compared with `compare_digest`;
a `True` comparison returns immediately, exhaustion raises the 400 "Invalid
signature" `HTTPException`, and a `TypeError` from a non-comparable candidate
escapes the loop. -/
def sigScan (expected : String) : List String → Except PyExc Bool
  | [] => .error (.http 400 ("Invalid signature"))
  | c :: rest =>
      match compare_digest expected c with
      | .error e => .error e
      | .ok true => .ok true
      | .ok false => sigScan expected rest

/-- Embeds `RevolutWebhookManager.validate_signature` (src/main.py lines 94-138),
state-threaded in the manager (the method never assigns to `self`). The two
guard raises (missing header, missing secret) precede the `try` block; inside
it the expected tag is `"v1=" + hexdigest` of HMAC-SHA256 over
`f"v1.{timestamp_header}.{raw_payload}"`, and the final
`except Exception` arm converts any exception of the block - including the
"Invalid signature" `HTTPException` itself and a `TypeError` from
`compare_digest` - into the 400 "Signature validation failed" response. -/
def validate_signature (mgr : RevolutWebhookManager)
    (signature_header timestamp_header : Option String) (raw_payload : String) :
    Except PyExc Bool × RevolutWebhookManager :=
  if !(pyTruthy signature_header) then
    (.error (.http 400 ("Missing signature header")), mgr)
  else if !(pyTruthy mgr.webhook_signing_secret) then
    (.error (.http 500 ("Missing webhook signing secret")), mgr)
  else
    let expected :=
      expected_signature (pyStrOfOpt mgr.webhook_signing_secret) timestamp_header raw_payload
    let received_signatures := (pySplitComma (pyStrOfOpt signature_header)).map pyStrip
    match sigScan expected received_signatures with
    | .ok b => (.ok b, mgr)
    | .error _ => (.error (.http 400 ("Signature validation failed")), mgr)

/-- Embeds `RevolutWebhookManager.process_webhook` (src/main.py lines 215-226): looks
up the two headers with case-sensitive `dict.get`, validates the timestamp,
then the signature; an exception from either step propagates. The `payload`
parameter of the source (the already-parsed JSON) is only pretty-printed and
is omitted. -/
def process_webhook (mgr : RevolutWebhookManager)
    (headers_dict : List (String × String)) (raw_payload : String) (now_us : Int) :
    Except PyExc Unit × RevolutWebhookManager :=
  let timestamp_header := dictGet headers_dict ("revolut-request-timestamp")
  let signature_header := dictGet headers_dict ("revolut-signature")
  match validate_timestamp timestamp_header now_us with
  | .error e => (.error e, mgr)
  | .ok _ =>
      match validate_signature mgr signature_header timestamp_header raw_payload with
      | (.error e, mgr1) => (.error e, mgr1)
      | (.ok _, mgr1) => (.ok (), mgr1)

/-- Embeds `handle_revolut_webhook` (src/main.py lines 232-254). `json_result` is the
outcome of `json.loads(raw_payload_str)`, an external stdlib call modelled as
an oracle argument (the parsed value itself is unused by the verification
path). The whole body sits in a `try` whose arms catch `JSONDecodeError` as a
400 and every other exception - the manager-missing and rejection
`HTTPException`s included - as a 500 carrying `str(e)`. On success the
endpoint returns the dict `describing status 204`, modelled as `.ok 204`. -/
def handle_revolut_webhook (json_result : Except PyExc Unit)
    (gwm : Option RevolutWebhookManager) (headers_dict : List (String × String))
    (raw_payload_str : String) (now_us : Int) : Except PyExc Nat :=
  let inner : Except PyExc Nat :=
    match json_result with
    | .error e => .error e
    | .ok _ =>
        match gwm with
        | none => .error (.http 500 ("Webhook manager not initialized"))
        | some mgr =>
            match (process_webhook mgr headers_dict raw_payload_str now_us).1 with
            | .error e => .error e
            | .ok _ => .ok 204
  match inner with
  | .ok n => .ok n
  | .error .jsonDecodeError => .error (.http 400 ("Invalid JSON payload"))
  | .error e => .error (.http 500 (pyStr e))

instance {e a : Type} [DecidableEq e] [DecidableEq a] : DecidableEq (Except e a) :=
  fun x y =>
    match x, y with
    | .ok u, .ok v =>
        match decEq u v with
        | .isTrue h => .isTrue (congrArg Except.ok h)
        | .isFalse h => .isFalse (fun hh => h (Except.ok.inj hh))
    | .ok _, .error _ => .isFalse (fun hh => Except.noConfusion hh)
    | .error _, .ok _ => .isFalse (fun hh => Except.noConfusion hh)
    | .error u, .error v =>
        match decEq u v with
        | .isTrue h => .isTrue (congrArg Except.error h)
        | .isFalse h => .isFalse (fun hh => h (Except.error.inj hh))

theorem pyTruthy_none : pyTruthy none = false := rfl

theorem pyStrOfOpt_some (s : String) : pyStrOfOpt (some s) = s := rfl

/-! ## Spec-side vocabulary -/

/-- The outcome taxonomy of the specification, read off a `process_webhook`
result: `Accepted` is success; the `Rejected*` reasons are the specific
`HTTPException`s the verification pipeline raises (the invalid-signature
rejection surfaces with detail "Signature validation failed" because the
blanket `except` of `validate_signature` rewraps the inner "Invalid
signature" exception; both spell `RejectedInvalidSignature`). Anything else -
in particular an escaping `OverflowError` - is outside the taxonomy. -/
def specDefinedOutcome (r : Except PyExc Unit) : Bool :=
  match r with
  | .ok _ => true
  | .error (.http 400 d) =>
      (d == "Missing timestamp header") || (d == "Invalid timestamp format") ||
      (d == "Webhook timestamp is too old") || (d == "Missing signature header") ||
      (d == "Invalid signature") || (d == "Signature validation failed")
  | .error (.http 500 d) => d == "Missing webhook signing secret"
  | .error _ => false

/-- An endpoint result that is an HTTP response (success, or an
`HTTPException` with status 400 or 500) rather than an escaping fault. -/
def isHttpResponse (r : Except PyExc Nat) : Bool :=
  match r with
  | .ok _ => true
  | .error (.http s _) => (s == 400) || (s == 500)
  | .error _ => false

/-- A `validate_signature` outcome that is either a verdict or an
`HTTPException` - never a bare Python fault such as `TypeError`. -/
def isHttpOutcome (r : Except PyExc Bool) : Bool :=
  match r with
  | .ok _ => true
  | .error (.http _ _) => true
  | .error _ => false

/-! ## Helper lemmas -/

theorem data_append (a b : String) : (a ++ b).data = a.data ++ b.data := rfl

theorem hexDigitChar_ascii (n : Nat) (h : n < 16) : (hexDigitChar n).toNat < 128 := by
  interval_cases n <;> decide

theorem byteToHexChars_ascii (b : Nat) : ∀ c ∈ byteToHexChars b, c.toNat < 128 := by
  intro c hc
  simp only [byteToHexChars, List.mem_cons, List.not_mem_nil, or_false] at hc
  rcases hc with rfl | rfl <;> exact hexDigitChar_ascii _ (Nat.mod_lt _ (by omega))

theorem hexOfBytes_ascii (l : List Nat) : ∀ c ∈ (hexOfBytes l).data, c.toNat < 128 := by
  intro c hc
  simp only [hexOfBytes, List.mem_flatten, List.mem_map] at hc
  obtain ⟨part, ⟨b, _, rfl⟩, hcpart⟩ := hc
  exact byteToHexChars_ascii b c hcpart

theorem expected_signature_ascii (secret : String) (ts : Option String) (body : String) :
    isAsciiStr (expected_signature secret ts body) = true := by
  simp only [expected_signature, isAsciiStr, hmacSha256Hex, List.all_eq_true, data_append]
  intro c hc
  rcases List.mem_append.mp hc with h | h
  · have h3 : c ∈ ['v', '1', '='] := h
    simp only [List.mem_cons, List.not_mem_nil, or_false] at h3
    rcases h3 with rfl | rfl | rfl <;> decide
  · exact decide_eq_true (hexOfBytes_ascii _ c h)

theorem expected_signature_ne_empty (secret : String) (ts : Option String) (body : String) :
    expected_signature secret ts body ≠ "" := by
  intro h
  have : (expected_signature secret ts body).data = ([] : List Char) := by rw [h]
  simp only [expected_signature, data_append] at this
  exact absurd this (by simp)

theorem pyTruthy_some (s : String) (h : s ≠ "") : pyTruthy (some s) = true := by
  simp [pyTruthy, h]

theorem sigScan_shape (e : String) (cs : List String) :
    sigScan e cs = .ok true ∨ ∃ err, sigScan e cs = .error err := by
  induction cs with
  | nil => exact Or.inr ⟨_, rfl⟩
  | cons c rest ih =>
      rcases h : compare_digest e c with err | b
      · exact Or.inr ⟨err, by simp [sigScan, h]⟩
      · cases b
        · simpa [sigScan, h] using ih
        · exact Or.inl (by simp [sigScan, h])

theorem sigScan_ok_iff (e : String) (he : isAsciiStr e = true) (cs : List String) :
    sigScan e cs = .ok true ↔
      ∃ pre post, cs = pre ++ e :: post ∧ ∀ c ∈ pre, isAsciiStr c = true := by
  induction cs with
  | nil =>
      constructor
      · intro h; exact absurd h (by simp [sigScan])
      · rintro ⟨pre, post, h, -⟩; exact absurd h (by simp)
  | cons c rest ih =>
      by_cases hc : isAsciiStr c = true
      · by_cases hce : c = e
        · subst hce
          constructor
          · intro _; exact ⟨[], rest, rfl, by simp⟩
          · intro _; simp [sigScan, compare_digest, he]
        · have hbe : (e == c) = false := beq_eq_false_iff_ne.mpr (fun hh => hce hh.symm)
          have hL : sigScan e (c :: rest) = sigScan e rest := by
            simp [sigScan, compare_digest, he, hc, hbe]
          rw [hL, ih]
          constructor
          · rintro ⟨pre, post, hsplit, hpre⟩
            refine ⟨c :: pre, post, by rw [hsplit]; rfl, ?_⟩
            intro x hx
            rcases List.mem_cons.mp hx with rfl | hx
            · exact hc
            · exact hpre x hx
          · rintro ⟨pre, post, hsplit, hpre⟩
            cases pre with
            | nil =>
                exact absurd (List.cons.injEq .. ▸ congrArg id hsplit) (by
                  intro hh
                  exact hce (by simpa using congrArg (fun l => List.head? l) hsplit))
            | cons c2 pre2 =>
                have hh := hsplit
                rw [List.cons_append] at hh
                have h1 : c2 = c := (List.cons.inj hh.symm).1
                have h2 : rest = pre2 ++ e :: post := (List.cons.inj hh).2
                exact ⟨pre2, post, h2, fun x hx => hpre x (List.mem_cons_of_mem _ hx)⟩
      · constructor
        · intro h
          have : compare_digest e c = .error .typeError := by
            simp [compare_digest, hc]
          simp [sigScan, this] at h
        · rintro ⟨pre, post, hsplit, hpre⟩
          cases pre with
          | nil =>
              have : c = e := by simpa using congrArg (fun l => List.head? l) hsplit
              rw [this] at hc
              exact absurd he hc
          | cons c2 pre2 =>
              have h1 : c2 = c := by
                have hh := hsplit
                rw [List.cons_append] at hh
                exact (List.cons.inj hh.symm).1
              exact absurd (h1 ▸ hpre c2 (List.mem_cons_self ..)) (by simp [hc])

theorem validate_signature_state (mgr : RevolutWebhookManager)
    (sh th : Option String) (body : String) :
    (validate_signature mgr sh th body).2 = mgr := by
  dsimp only [validate_signature]
  split
  · rfl
  · split
    · rfl
    · split <;> rfl

theorem process_webhook_state (mgr : RevolutWebhookManager)
    (headers : List (String × String)) (body : String) (now : Int) :
    (process_webhook mgr headers body now).2 = mgr := by
  dsimp only [process_webhook]
  cases hvt : validate_timestamp (dictGet headers ("revolut-request-timestamp")) now with
  | error e => rfl
  | ok b =>
      have h2 := validate_signature_state mgr (dictGet headers ("revolut-signature"))
        (dictGet headers ("revolut-request-timestamp")) body
      rcases hvs : validate_signature mgr (dictGet headers ("revolut-signature"))
        (dictGet headers ("revolut-request-timestamp")) body with ⟨r, m1⟩
      rw [hvs] at h2
      cases r <;> simpa using h2

theorem dictGet_eq_none (d : List (String × String)) (k : String)
    (h : ∀ kv ∈ d, kv.1 ≠ k) : dictGet d k = none := by
  induction d with
  | nil => rfl
  | cons kv r ih =>
      obtain ⟨k1, v⟩ := kv
      have h1 : k1 ≠ k := h (k1, v) (List.mem_cons_self ..)
      simp only [dictGet, beq_eq_false_iff_ne.mpr h1, Bool.false_eq_true, if_false]
      exact ih (fun kv hkv => h kv (List.mem_cons_of_mem _ hkv))

theorem pySplitCommaAux_no_comma (l : List Char) (h : (',') ∉ l) :
    ∀ cur, pySplitCommaAux cur l = [cur.reverse ++ l] := by
  induction l with
  | nil => intro cur; simp [pySplitCommaAux]
  | cons c r ih =>
      intro cur
      have hc : c ≠ (',') := fun hh => h (hh ▸ List.mem_cons_self ..)
      have hr : (',') ∉ r := fun hh => h (List.mem_cons_of_mem _ hh)
      simp only [pySplitCommaAux, if_neg hc]
      rw [ih hr (c :: cur)]
      simp [List.reverse_cons, List.append_assoc]

theorem pySplitComma_no_comma (s : String) (h : (',') ∉ s.data) :
    pySplitComma s = [s] := by
  unfold pySplitComma
  rw [pySplitCommaAux_no_comma s.data h []]
  rfl

theorem pyStrip_all_space (s : String) (h : ∀ c ∈ s.data, pyIsSpace c = true) :
    pyStrip s = "" := by
  unfold pyStrip pyStripList
  rw [List.dropWhile_eq_nil_iff.mpr h]
  rfl

/-! ## Claim theorems -/

set_option maxRecDepth 1000000

/-- C1 counterexample: with no signing secret provisioned, a fresh timestamp
and an absent signature header, `process_webhook` rejects with the
missing-signature 400, not with the secret-unavailable 500 - the signature
header emptiness check of `validate_signature` precedes the secret check, so
the claimed "regardless of header validity" fails for an absent or empty
signature header. -/
theorem c1_counterexample :
    (process_webhook ⟨none⟩ [(("revolut-request-timestamp"), ("0"))] ("") 0).1 =
      .error (.http 400 ("Missing signature header")) ∧
    (process_webhook ⟨none⟩ [(("revolut-request-timestamp"), ("0"))] ("") 0).1 ≠
      .error (.http 500 ("Missing webhook signing secret")) := by
  have h1 : (process_webhook ⟨none⟩ [(("revolut-request-timestamp"), ("0"))] ("") 0).1 =
      .error (.http 400 ("Missing signature header")) := by decide
  exact ⟨h1, fun h => by rw [h1] at h; simp at h⟩

/-- C1 (amended): before a signing secret is provisioned, any notification
whose timestamp validates and whose signature header is present and non-empty
is rejected with the secret-unavailable 500, regardless of the signature
header contents. -/
theorem c1_amended (mgr : RevolutWebhookManager) (headers : List (String × String))
    (body : String) (now : Int) :
    mgr.webhook_signing_secret = none →
    validate_timestamp (dictGet headers ("revolut-request-timestamp")) now = .ok true →
    pyTruthy (dictGet headers ("revolut-signature")) = true →
    (process_webhook mgr headers body now).1 =
      .error (.http 500 ("Missing webhook signing secret")) := by
  intro hsec hvt hsig
  simp [process_webhook, hvt, validate_signature, hsig, hsec, pyTruthy_none]

/-- C1 witness: the amended claim at a concrete input. -/
theorem c1_amended_witness :
    (process_webhook ⟨none⟩
      [(("revolut-request-timestamp"), ("0")), (("revolut-signature"), ("v1=x"))] ("") 0).1 =
      .error (.http 500 ("Missing webhook signing secret")) :=
  c1_amended ⟨none⟩
    [(("revolut-request-timestamp"), ("0")), (("revolut-signature"), ("v1=x"))] ("") 0
    rfl (by decide) (by decide)

/-- C4 (confirmed): a timestamp-validation failure short-circuits
`process_webhook` with exactly that failure; `validate_signature` is never
reached, so a request with both a stale timestamp and an invalid signature
reports the timestamp error. -/
theorem c4_timestamp_short_circuit (mgr : RevolutWebhookManager)
    (headers : List (String × String)) (body : String) (now : Int) (e : PyExc) :
    validate_timestamp (dictGet headers ("revolut-request-timestamp")) now = .error e →
    (process_webhook mgr headers body now).1 = .error e := by
  intro h
  simp [process_webhook, h]

/-- C4 witness: a request whose timestamp is 301 seconds old and whose
signature is invalid reports the staleness error. -/
theorem c4_witness :
    validate_timestamp (some ("0")) 301000000 =
      .error (.http 400 ("Webhook timestamp is too old")) ∧
    (process_webhook ⟨some ("whsec_test")⟩
      [(("revolut-request-timestamp"), ("0")), (("revolut-signature"), ("v1=deadbeef"))]
      ("") 301000000).1 = .error (.http 400 ("Webhook timestamp is too old")) :=
  ⟨by decide,
   c4_timestamp_short_circuit ⟨some ("whsec_test")⟩
     [(("revolut-request-timestamp"), ("0")), (("revolut-signature"), ("v1=deadbeef"))]
     ("") 301000000 _ (by decide)⟩

/-- C9 counterexample: the same notification is rejected as missing its
timestamp when the header names are capitalized but processed further when
they are lowercase - `dict.get` lookup in `process_webhook` is
case-sensitive, not case-insensitive. -/
theorem c9_counterexample :
    (process_webhook ⟨some ("k9")⟩
      [(("Revolut-Request-Timestamp"), ("0")), (("Revolut-Signature"), ("v1=x"))] ("") 0).1 =
      .error (.http 400 ("Missing timestamp header")) ∧
    (process_webhook ⟨some ("k9")⟩
      [(("revolut-request-timestamp"), ("0")), (("revolut-signature"), ("v1=x"))] ("") 0).1 =
      .error (.http 400 ("Signature validation failed")) := by
  exact ⟨by decide, by decide⟩

/-- C9 (amended): header lookup is case-sensitive on the exact lowercase
names; a header mapping with no key spelled exactly
`revolut-request-timestamp` - whatever other casings it holds - is treated
as having no timestamp at all. -/
theorem c9_amended (mgr : RevolutWebhookManager) (headers : List (String × String))
    (body : String) (now : Int) :
    (∀ kv ∈ headers, kv.1 ≠ ("revolut-request-timestamp")) →
    (process_webhook mgr headers body now).1 =
      .error (.http 400 ("Missing timestamp header")) := by
  intro h
  have hd := dictGet_eq_none headers ("revolut-request-timestamp") h
  simp only [process_webhook, hd]
  rfl

/-- C9 witness: the amended claim at a concrete capitalized header mapping. -/
theorem c9_amended_witness :
    (process_webhook ⟨some ("k9w")⟩ [(("Revolut-Request-Timestamp"), ("0"))] ("") 0).1 =
      .error (.http 400 ("Missing timestamp header")) :=
  c9_amended ⟨some ("k9w")⟩ [(("Revolut-Request-Timestamp"), ("0"))] ("") 0 (by decide)

/-- C10 (confirmed): `process_webhook` leaves the stored signing secret
exactly as it was, for every store state, notification and outcome. -/
theorem c10_authenticate_preserves_store (mgr : RevolutWebhookManager)
    (headers : List (String × String)) (body : String) (now : Int) :
    ((process_webhook mgr headers body now).2).webhook_signing_secret =
      mgr.webhook_signing_secret := by
  rw [process_webhook_state]

/-- C2 counterexample: a header whose second trimmed candidate equals the
expected tag but whose first candidate is non-ASCII (so `compare_digest`
raises `TypeError`) is rejected, although the claim requires acceptance
whenever any candidate matches. -/
theorem c2_counterexample :
    ((pySplitComma ("é,v1=" ++ hmacSha256Hex ("k2") ("v1.5.b2"))).map pyStrip).getD 1 ("") =
      expected_signature ("k2") (some ("5")) ("b2") ∧
    (validate_signature ⟨some ("k2")⟩ (some ("é,v1=" ++ hmacSha256Hex ("k2") ("v1.5.b2")))
      (some ("5")) ("b2")).1 = .error (.http 400 ("Signature validation failed")) ∧
    (validate_signature ⟨some ("k2")⟩ (some ("é,v1=" ++ hmacSha256Hex ("k2") ("v1.5.b2")))
      (some ("5")) ("b2")).1 ≠ .ok true := by
  have hrej : (validate_signature ⟨some ("k2")⟩
      (some ("é,v1=" ++ hmacSha256Hex ("k2") ("v1.5.b2")))
      (some ("5")) ("b2")).1 = .error (.http 400 ("Signature validation failed")) := by decide
  exact ⟨by decide, hrej, fun h => by rw [hrej] at h; simp at h⟩

/-- C2 (amended): with a provisioned non-empty secret and a non-empty
signature header, `validate_signature` accepts exactly when the expected tag
occurs among the trimmed comma-separated candidates with every candidate
before it ASCII-comparable; every non-accepting run rejects with the 400
signature-validation failure (the rewrapped invalid-signature rejection). -/
theorem c2_amended (mgr : RevolutWebhookManager) (secret : String) (sh ts : Option String)
    (body : String) :
    mgr.webhook_signing_secret = some secret → secret ≠ "" → pyTruthy sh = true →
    (((validate_signature mgr sh ts body).1 = .ok true ↔
      ∃ pre post, (pySplitComma (pyStrOfOpt sh)).map pyStrip =
        pre ++ expected_signature secret ts body :: post ∧
        ∀ c ∈ pre, isAsciiStr c = true) ∧
    ((validate_signature mgr sh ts body).1 ≠ .ok true →
      (validate_signature mgr sh ts body).1 =
        .error (.http 400 ("Signature validation failed")))) := by
  intro hsec hne hsh
  have hsecT2 : pyTruthy (some secret) = true := pyTruthy_some _ hne
  have hvs : (validate_signature mgr sh ts body).1 =
      match sigScan (expected_signature secret ts body)
          ((pySplitComma (pyStrOfOpt sh)).map pyStrip) with
      | .ok b => Except.ok b
      | .error _ => Except.error (.http 400 ("Signature validation failed")) := by
    simp only [validate_signature, hsh, hsec, hsecT2, Bool.not_true, Bool.false_eq_true,
      if_false, pyStrOfOpt_some]
    cases sigScan (expected_signature secret ts body)
      ((pySplitComma (pyStrOfOpt sh)).map pyStrip) <;> rfl
  have hek := expected_signature_ascii secret ts body
  have hiff := sigScan_ok_iff (expected_signature secret ts body) hek
    ((pySplitComma (pyStrOfOpt sh)).map pyStrip)
  rcases sigScan_shape (expected_signature secret ts body)
      ((pySplitComma (pyStrOfOpt sh)).map pyStrip) with hscan | ⟨err, hscan⟩
  · have hres : (validate_signature mgr sh ts body).1 = .ok true := by rw [hvs, hscan]
    constructor
    · rw [hres]
      exact ⟨fun _ => hiff.mp hscan, fun _ => rfl⟩
    · intro hne2; exact absurd hres hne2
  · have hres : (validate_signature mgr sh ts body).1 =
        .error (.http 400 ("Signature validation failed")) := by rw [hvs, hscan]
    constructor
    · rw [hres]
      constructor
      · intro h; exact absurd h (by simp)
      · intro hr
        have hok := hiff.mpr hr
        rw [hscan] at hok
        exact absurd hok (by simp)
    · intro _; exact hres

/-- C2 witness: the amended acceptance condition instantiated - a header that
is exactly the expected tag is accepted. -/
theorem c2_witness :
    (validate_signature ⟨some ("k2w")⟩ (some (expected_signature ("k2w") (some ("6")) ("b2w")))
      (some ("6")) ("b2w")).1 = .ok true :=
  (c2_amended ⟨some ("k2w")⟩ ("k2w") (some (expected_signature ("k2w") (some ("6")) ("b2w")))
    (some ("6")) ("b2w") rfl (by decide) (by decide)).1.mpr
    ⟨[], [], by decide, by decide⟩

/-- C5 counterexample: a whitespace-only signature header is rejected as an
invalid signature (the single trimmed candidate is the empty string, which
never matches), not as a missing signature. -/
theorem c5_counterexample :
    (validate_signature ⟨some ("k5")⟩ (some (" ")) (some ("2")) ("y")).1 =
      .error (.http 400 ("Signature validation failed")) ∧
    (validate_signature ⟨some ("k5")⟩ (some (" ")) (some ("2")) ("y")).1 ≠
      .error (.http 400 ("Missing signature header")) := by
  have h1 : (validate_signature ⟨some ("k5")⟩ (some (" ")) (some ("2")) ("y")).1 =
      .error (.http 400 ("Signature validation failed")) := by decide
  exact ⟨h1, fun h => by rw [h1] at h; simp at h⟩

/-- C5 (amended): an absent or empty signature header is rejected as missing;
a non-empty all-whitespace header passes the emptiness guard and - once a
secret is provisioned - is rejected as an invalid signature instead. -/
theorem c5_amended :
    (∀ (mgr : RevolutWebhookManager) (ts : Option String) (body : String),
      (validate_signature mgr none ts body).1 =
        .error (.http 400 ("Missing signature header")) ∧
      (validate_signature mgr (some ("")) ts body).1 =
        .error (.http 400 ("Missing signature header"))) ∧
    (∀ (mgr : RevolutWebhookManager) (s : String) (ts : Option String) (body : String),
      s ≠ "" → (∀ c ∈ s.data, pyIsSpace c = true) →
      pyTruthy mgr.webhook_signing_secret = true →
      (validate_signature mgr (some s) ts body).1 =
        .error (.http 400 ("Signature validation failed"))) := by
  constructor
  · intro mgr ts body; exact ⟨rfl, rfl⟩
  · intro mgr s ts body hne hsp hsec
    have hcomma : (',') ∉ s.data := by
      intro hmem
      exact absurd (hsp _ hmem) (by decide)
    have hsplit : (pySplitComma s).map pyStrip = [("")] := by
      rw [pySplitComma_no_comma s hcomma]
      simp [pyStrip_all_space s hsp]
    have hsh : pyTruthy (some s) = true := pyTruthy_some s hne
    have hexp := expected_signature_ascii (pyStrOfOpt mgr.webhook_signing_secret) ts body
    have hbe : (expected_signature (pyStrOfOpt mgr.webhook_signing_secret) ts body ==
        ("" : String)) = false :=
      beq_eq_false_iff_ne.mpr (expected_signature_ne_empty _ ts body)
    have hascii : isAsciiStr ("") = true := by decide
    have hscan : sigScan (expected_signature (pyStrOfOpt mgr.webhook_signing_secret) ts body)
        [("")] = .error (.http 400 ("Invalid signature")) := by
      simp [sigScan, compare_digest, hexp, hbe, hascii]
    simp only [validate_signature, hsh, hsec, Bool.not_true, Bool.false_eq_true, if_false,
      pyStrOfOpt_some, hsplit, hscan]

/-- C5 witness: the amended claim at a concrete whitespace-only header. -/
theorem c5_amended_witness :
    (validate_signature ⟨some ("k5w")⟩ (some (" ")) (some ("9")) ("z")).1 =
      .error (.http 400 ("Signature validation failed")) :=
  c5_amended.2 ⟨some ("k5w")⟩ (" ") (some ("9")) ("z") (by decide) (by decide) (by decide)

/-- C6 counterexample: a non-comparable first candidate aborts the scan, so a
header holding a malformed candidate before the matching one is rejected even
though a later candidate equals the expected tag. -/
theorem c6_counterexample :
    (pySplitComma ("ß,v1=" ++ hmacSha256Hex ("k6") ("v1.1.x"))).map pyStrip =
      [("ß"), expected_signature ("k6") (some ("1")) ("x")] ∧
    (validate_signature ⟨some ("k6")⟩ (some ("ß,v1=" ++ hmacSha256Hex ("k6") ("v1.1.x")))
      (some ("1")) ("x")).1 = .error (.http 400 ("Signature validation failed")) ∧
    (validate_signature ⟨some ("k6")⟩ (some ("ß,v1=" ++ hmacSha256Hex ("k6") ("v1.1.x")))
      (some ("1")) ("x")).1 ≠ .ok true := by
  have h2 : (validate_signature ⟨some ("k6")⟩
      (some ("ß,v1=" ++ hmacSha256Hex ("k6") ("v1.1.x")))
      (some ("1")) ("x")).1 = .error (.http 400 ("Signature validation failed")) := by decide
  exact ⟨by decide, h2, fun h => by rw [h2] at h; simp at h⟩

/-- C6 (amended): `validate_signature` never lets a bare Python fault escape -
each outcome is a verdict or an `HTTPException` (the `TypeError` on a
non-comparable candidate is caught and surfaced as the 400 rejection); and a
malformed candidate is harmless only when it comes after the match: if the
expected tag is the first trimmed candidate, the header is accepted whatever
follows it. -/
theorem c6_amended :
    (∀ (mgr : RevolutWebhookManager) (sh ts : Option String) (body : String),
      isHttpOutcome ((validate_signature mgr sh ts body).1) = true) ∧
    (∀ (mgr : RevolutWebhookManager) (secret : String) (sh ts : Option String)
      (body : String) (rest : List String),
      mgr.webhook_signing_secret = some secret → secret ≠ "" → pyTruthy sh = true →
      (pySplitComma (pyStrOfOpt sh)).map pyStrip =
        expected_signature secret ts body :: rest →
      (validate_signature mgr sh ts body).1 = .ok true) := by
  constructor
  · intro mgr sh ts body
    dsimp only [validate_signature]
    split
    · rfl
    · split
      · rfl
      · split <;> rfl
  · intro mgr secret sh ts body rest hsec hne hsh hsplit
    have hsecT2 : pyTruthy (some secret) = true := pyTruthy_some _ hne
    have hek := expected_signature_ascii secret ts body
    have hscan : sigScan (expected_signature secret ts body)
        (expected_signature secret ts body :: rest) = .ok true := by
      simp [sigScan, compare_digest, hek]
    simp only [validate_signature, hsh, hsec, hsecT2, Bool.not_true, Bool.false_eq_true,
      if_false, pyStrOfOpt_some, hsplit, hscan]

/-- C6 witness: a header carrying the expected tag first and a non-comparable
candidate second is accepted. -/
theorem c6_witness :
    (validate_signature ⟨some ("k6w")⟩
      (some (expected_signature ("k6w") (some ("8")) ("x6") ++ ",é")) (some ("8")) ("x6")).1 =
      .ok true :=
  c6_amended.2 ⟨some ("k6w")⟩ ("k6w")
    (some (expected_signature ("k6w") (some ("8")) ("x6") ++ ",é")) (some ("8")) ("x6")
    [("é")] rfl (by decide) (by decide) (by decide)

/-- C7 (confirmed): the end-to-end scenario of the specification - secret
whsec_test, timestamp header 1700000000000, the literal order-completed JSON
body, the signature header computed over the canonical string, and `now`
equal to the timestamp instant - is accepted. -/
theorem c7_end_to_end :
    (process_webhook ⟨some ("whsec_test")⟩
      [(("revolut-request-timestamp"), ("1700000000000")),
       (("revolut-signature"),
        ("v1=" ++ hmacSha256Hex ("whsec_test")
          ("v1.1700000000000.\x7b\"event\":\"ORDER_COMPLETED\"\x7d")))]
      ("\x7b\"event\":\"ORDER_COMPLETED\"\x7d") 1700000000000000).1 = .ok () := by
  decide

/-- C8 counterexample: a timestamp header of 10^22 milliseconds parses as an
integer, but its conversion raises `OverflowError`, which the
`except (ValueError, TypeError)` arm of `validate_timestamp` does not catch:
`process_webhook` escapes with a bare fault outside the defined outcome
taxonomy, and the endpoint surfaces it as a generic 500, not as a specific
rejection reason. -/
theorem c8_counterexample :
    (process_webhook ⟨some ("k8")⟩
      [(("revolut-request-timestamp"), ("10000000000000000000000")),
       (("revolut-signature"), ("v1=x"))] ("") 0).1 = .error .overflowError ∧
    specDefinedOutcome (process_webhook ⟨some ("k8")⟩
      [(("revolut-request-timestamp"), ("10000000000000000000000")),
       (("revolut-signature"), ("v1=x"))] ("") 0).1 = false ∧
    handle_revolut_webhook (.ok ()) (some ⟨some ("k8")⟩)
      [(("revolut-request-timestamp"), ("10000000000000000000000")),
       (("revolut-signature"), ("v1=x"))] ("") 0 =
      .error (.http 500 ("timestamp out of range for platform time_t")) := by
  exact ⟨by decide, by decide, by decide⟩

/-- C8 (amended): the endpoint never lets a fault escape - for every header
mapping, body, manager state and `json.loads` outcome, the handler terminates
in an HTTP response (success, or an `HTTPException` with status 400 or 500);
a pathological timestamp magnitude is answered with a generic 500 rather than
a specific rejection reason. -/
theorem c8_no_crash (json_result : Except PyExc Unit) (gwm : Option RevolutWebhookManager)
    (headers : List (String × String)) (body : String) (now : Int) :
    isHttpResponse (handle_revolut_webhook json_result gwm headers body now) = true := by
  dsimp only [handle_revolut_webhook]
  split
  · rfl
  · rfl
  · rfl
